import Mathlib

/-!
# Shared-memory image hand-off: `SharedMemoryManager`

A shallow embedding of `EncapsulationByClaude/shared_memory_manager.{h,cpp}` and of the
consumer step of `EncapsulationByClaude/image_processor.cpp`.

* `Mat` stands for `cv::Mat` restricted to what the manager touches: `rows`, `cols`,
  the channel count and per-channel byte width of its type, and its pixel bytes
  (a continuous matrix, as produced by `cv::imread`, `cap >> frame` and `clone()`).
* `SharedImageData` is the struct placed at the start of the mapped region, with the
  flexible array member `image_data` carried as the list of bytes that follow the header
  in the mapping (its length is the capacity the segment was created with).
  The mutex and the two condition variables carry no data of their own: every member
  function takes the mutex for its whole body, so each call is one atomic step on the
  shared state and is embedded as a function from the state before to the state after.
  The two waits are the exception: they give the mutex up while blocked, and are embedded
  as functions of what the other parties make of the segment meanwhile and of the
  moments at which the condition variable wakes the caller, on a logical clock.
* An access that leaves the mapped arena (`memcpy` or `clone()` past its end) has no
  defined result; such a call yields `none` in place of a return value.
* The shared-memory namespace of the operating system is a map from names to segment
  contents.  A freshly created and sized object reads as zero bytes.  Running out of
  memory or address space is not part of the model.
-/

namespace IPC

/-- One byte of pixel data (`char image_data[]`, `uchar* data`). -/
abbrev Byte := Fin 256

/-- Number of values of a 64-bit `size_t`. -/
def SIZE_MOD : Nat := 2 ^ 64

/-- Largest value of a 32-bit `int`, the type of `cv::Mat::rows` and `cv::Mat::cols`. -/
def INT_MAX : Nat := 2 ^ 31 - 1

/-! ## `cv::Mat` -/

/-- The part of a two-dimensional continuous `cv::Mat` that the manager reads or builds. -/
structure Mat where
  /-- Field `rows`. -/
  rows : Nat
  /-- Field `cols`. -/
  cols : Nat
  /-- Result of `channels()`: the channel count of the matrix type. -/
  channels : Nat
  /-- Result of `elemSize1()`: bytes per channel value (1 for `CV_8U`). -/
  elemSize1 : Nat
  /-- The bytes behind `data`. -/
  data : List Byte
deriving DecidableEq, Repr

namespace Mat

/-- Member `total()`: number of elements, computed in `size_t`. -/
def total (m : Mat) : Nat := m.rows * m.cols

/-- Member `elemSize()`: bytes per element, `channels() * elemSize1()`. -/
def elemSize (m : Mat) : Nat := m.channels * m.elemSize1

/-- Member `empty()`: `data == 0 || total() == 0`. -/
def empty (m : Mat) : Bool := m.data.isEmpty || m.total == 0

/-- The default-constructed `cv::Mat()`: no rows, no columns, no data, type `CV_8UC1`. -/
def mk0 : Mat := { rows := 0, cols := 0, channels := 1, elemSize1 := 1, data := [] }

/-- A matrix object as it can exist in memory: its dimensions are `int`s and its buffer
holds exactly `total() * elemSize()` bytes, an amount that fits the address space. -/
def wellFormed (m : Mat) : Prop :=
  m.rows ≤ INT_MAX ∧ m.cols ≤ INT_MAX ∧
    m.data.length = m.total * m.elemSize ∧ m.data.length < SIZE_MOD

instance (m : Mat) : Decidable m.wellFormed := by
  unfold wellFormed; exact inferInstance

/-- The type `CV_8UC3`: three channels of one byte each. -/
def isCV_8UC3 (m : Mat) : Prop := m.channels = 3 ∧ m.elemSize1 = 1

instance (m : Mat) : Decidable m.isCV_8UC3 := by
  unfold isCV_8UC3; exact inferInstance

end Mat

/-! ## The shared header and arena -/

/-- The struct `SharedImageData` at the start of the mapping together with the bytes of
its trailing array `image_data`. -/
structure SharedImageData where
  /-- A new image is available. -/
  new_image_ready : Bool
  /-- Processing of the last image is finished. -/
  processing_done : Bool
  /-- Image width. -/
  width : Nat
  /-- Image height. -/
  height : Nat
  /-- Image channel count. -/
  channels : Nat
  /-- Size of the image data in bytes. -/
  data_size : Nat
  /-- The arena: the bytes of the mapping after the header. -/
  image_data : List Byte
deriving DecidableEq, Repr

/-- The two ways of constructing a manager. -/
inductive SharedMemoryMode where
  | CREATE
  | OPEN
deriving DecidableEq, Repr

/-- The private members of `SharedMemoryManager` other than the mapping itself. -/
structure SharedMemoryManager where
  /-- Name of the shared memory object. -/
  name_ : String
  /-- Largest image size this handle accepts. -/
  max_image_size_ : Nat
  /-- Whether this handle created the object. -/
  is_creator_ : Bool
deriving DecidableEq, Repr

/-- Effect of `std::memcpy(image_data, src, n)` on the arena when it fits: the first `n`
bytes are replaced by the first `n` bytes of `src`, the rest is kept. -/
def memcpy (arena src : List Byte) (n : Nat) : List Byte :=
  src.take n ++ arena.drop n

namespace SharedMemoryManager

/-- Member `writeImage`.  Returns the value returned to the caller (`none` when the copy
runs past the end of the arena) and the shared state afterwards. -/
def writeImage (self : SharedMemoryManager) (image : Mat) (sd : SharedImageData) :
    Option Bool × SharedImageData :=
  if image.empty then
    (some false, sd)
  else
    let data_size := (image.total * image.elemSize) % SIZE_MOD
    if data_size > self.max_image_size_ then
      (some false, sd)
    else
      let sd1 := { sd with
        width := image.cols
        height := image.rows
        channels := image.channels
        data_size := data_size }
      if data_size ≤ sd1.image_data.length then
        (some true, { sd1 with image_data := memcpy sd1.image_data image.data data_size })
      else
        (none, sd1)

/-- Member `readImage`.  The matrix is built over the arena with type `CV_8UC3` whatever
`channels` says, and `clone()` copies `height * width * 3` bytes out of the arena.
No return value (`none`) when a dimension does not fit the `int` parameters of the
`cv::Mat` constructor or when the copy would read past the end of the arena. -/
def readImage (_self : SharedMemoryManager) (sd : SharedImageData) :
    Option Mat × SharedImageData :=
  if sd.width = 0 ∨ sd.height = 0 ∨ sd.data_size = 0 then
    (some Mat.mk0, sd)
  else if INT_MAX < sd.height ∨ INT_MAX < sd.width then
    (none, sd)
  else if sd.image_data.length < sd.height * sd.width * 3 then
    (none, sd)
  else
    (some { rows := sd.height, cols := sd.width, channels := 3, elemSize1 := 1,
            data := sd.image_data.take (sd.height * sd.width * 3) }, sd)

/-- Member `notifyNewImage` (the `notify_one` only wakes a waiter). -/
def notifyNewImage (_self : SharedMemoryManager) (sd : SharedImageData) : SharedImageData :=
  { sd with new_image_ready := true, processing_done := false }

/-- Member `notifyProcessingDone` (the `notify_one` only wakes a waiter). -/
def notifyProcessingDone (_self : SharedMemoryManager) (sd : SharedImageData) :
    SharedImageData :=
  { sd with new_image_ready := false, processing_done := true }

end SharedMemoryManager

/-! ## Segment lifecycle -/

/-- The operating system's shared-memory namespace: the contents of the object linked
under each name, if any. -/
abbrev Namespace := String → Option SharedImageData

/-- The error codes of `bip::interprocess_exception` raised when an object is opened. -/
inductive error_code_t where
  | already_exists_error
  | not_found_error
deriving DecidableEq, Repr

/-- The exception `bip::interprocess_exception`, identified by its error code. -/
structure interprocess_exception where
  /-- Result of `get_error_code()`. -/
  error_code : error_code_t
deriving DecidableEq, Repr

namespace shared_memory_object

/-- `bip::shared_memory_object(bip::create_only, name, bip::read_write)`: throws
`already_exists_error` when an object of that name is linked. -/
def create_only (ns : Namespace) (name : String) : Except interprocess_exception Unit :=
  if (ns name).isSome then .error ⟨.already_exists_error⟩ else .ok ()

/-- `bip::shared_memory_object(bip::open_only, name, bip::read_write)` and the mapping of
the object: throws `not_found_error` when no object of that name is linked, and gives
the contents of the existing object otherwise. -/
def open_only (ns : Namespace) (name : String) :
    Except interprocess_exception SharedImageData :=
  match ns name with
  | none => .error ⟨.not_found_error⟩
  | some sd => .ok sd

/-- Contents of a new object after `truncate(sizeof(SharedImageData) + capacity)` and
mapping: every byte reads as zero, in the header and in the `capacity` arena bytes. -/
def truncate (capacity : Nat) : SharedImageData :=
  { new_image_ready := false, processing_done := false, width := 0, height := 0,
    channels := 0, data_size := 0, image_data := List.replicate capacity 0 }

/-- The namespace with `sd` linked under `name`. -/
def link (ns : Namespace) (name : String) (sd : SharedImageData) : Namespace :=
  fun n => if n = name then some sd else ns n

/-- Static `bip::shared_memory_object::remove(name)`: unlinks the name; the result tells
whether there was an object to remove. -/
def remove (ns : Namespace) (name : String) : Bool × Namespace :=
  ((ns name).isSome, fun n => if n = name then none else ns n)

end shared_memory_object

/-- Default value of the constructor parameter `max_image_size`. -/
def default_max_image_size : Nat := 1920 * 1080 * 3

namespace SharedMemoryManager

/-- The constructor `SharedMemoryManager(name, mode, max_image_size)`.  Returns the
namespace afterwards and either the constructed handle or the exception that leaves the
constructor.  In `CREATE` mode the placement `new` default-initialises the struct, which
stores nothing into its scalar members, and the two flags are then assigned.  Sizes are
natural numbers: the size `sizeof(SharedImageData) + max_image_size_` is taken to be
representable and granted by the system, so `truncate` and the mapping do not throw. -/
def ctor (ns : Namespace) (name : String) (mode : SharedMemoryMode) (max_image_size : Nat) :
    Namespace × Except interprocess_exception SharedMemoryManager :=
  let self : SharedMemoryManager :=
    { name_ := name, max_image_size_ := max_image_size,
      is_creator_ := decide (mode = SharedMemoryMode.CREATE) }
  let body : Namespace × Except interprocess_exception Unit :=
    match mode with
    | .CREATE =>
      match shared_memory_object.create_only ns name with
      | .error ex => (ns, .error ex)
      | .ok () =>
        let shared_data := shared_memory_object.truncate self.max_image_size_
        let shared_data := { shared_data with new_image_ready := false }
        let shared_data := { shared_data with processing_done := true }
        (shared_memory_object.link ns name shared_data, .ok ())
    | .OPEN =>
      match shared_memory_object.open_only ns name with
      | .error ex => (ns, .error ex)
      | .ok _ => (ns, .ok ())
  match body with
  | (ns1, .error ex) => (ns1, .error ex)
  | (ns1, .ok ()) => (ns1, .ok self)

/-- The static member `remove(name)`. -/
def remove (ns : Namespace) (name : String) : Bool × Namespace :=
  shared_memory_object.remove ns name

/-- The destructor `~SharedMemoryManager()`: the namespace afterwards. -/
def dtor (self : SharedMemoryManager) (ns : Namespace) : Namespace :=
  if self.is_creator_ then (remove ns self.name_).2 else ns

end SharedMemoryManager

/-! ## Waiting on the two condition variables

A wait releases the mutex while it is blocked, so what it sees on waking is decided by
the other parties.  They are given to a wait as `env`, the contents of the segment at
each clock value (milliseconds), and `wakes`, the clock values at which the condition
variable wakes the caller, by a notification or spuriously.  After the last of them no
further wake-up arrives. -/

/-- What a wait call has done when it ends. -/
structure WaitResult where
  /-- The value returned, or `none` when the call is still blocked after the last
  wake-up. -/
  value : Option Bool
  /-- The clock when the call returns (or blocks for good). -/
  time : Nat
  /-- The shared state at that moment. -/
  shared : SharedImageData
  /-- The `abs_time` argument of every `timed_wait` call made, in order. -/
  deadlines : List Nat
deriving DecidableEq, Repr

/-- `bip::interprocess_condition::timed_wait(lock, abs_time)` entered when the next
wake-up, if any, comes at `next_wake`: it returns `true` at the wake-up when that is
before `abs_time`, and `false` at `abs_time` otherwise. -/
def timed_wait (abs_time : Nat) (next_wake : Option Nat) : Bool × Nat :=
  match next_wake with
  | some t => if t < abs_time then (true, t) else (false, abs_time)
  | none => (false, abs_time)

/-- The loop `while (!flag) cond.wait(lock); return true;` entered at clock `t`. -/
def waitLoop (flag : SharedImageData → Bool) (env : Nat → SharedImageData) :
    Nat → List Nat → WaitResult
  | t, [] =>
    if flag (env t) then
      { value := some true, time := t, shared := env t, deadlines := [] }
    else
      { value := none, time := t, shared := env t, deadlines := [] }
  | t, w :: ws =>
    if flag (env t) then
      { value := some true, time := t, shared := env t, deadlines := [] }
    else
      waitLoop flag env w ws

/-- The loop
`while (!flag) { if (cond.timed_wait(lock, end_time)) { if (flag) return true; } else return false; } return true;`
entered at clock `t`. -/
def timedWaitLoop (flag : SharedImageData → Bool) (env : Nat → SharedImageData)
    (end_time : Nat) : Nat → List Nat → WaitResult
  | t, [] =>
    if flag (env t) then
      { value := some true, time := t, shared := env t, deadlines := [] }
    else
      let r := timed_wait end_time none
      { value := some false, time := r.2, shared := env r.2, deadlines := [end_time] }
  | t, w :: ws =>
    if flag (env t) then
      { value := some true, time := t, shared := env t, deadlines := [] }
    else
      let r := timed_wait end_time (some w)
      if r.1 then
        if flag (env r.2) then
          { value := some true, time := r.2, shared := env r.2, deadlines := [end_time] }
        else
          let rest := timedWaitLoop flag env end_time r.2 ws
          { rest with deadlines := end_time :: rest.deadlines }
      else
        { value := some false, time := r.2, shared := env r.2, deadlines := [end_time] }

namespace SharedMemoryManager

/-- Member `waitForNewImage(timeout_ms)` entered at clock `now`. -/
def waitForNewImage (_self : SharedMemoryManager) (timeout_ms : Int) (now : Nat)
    (env : Nat → SharedImageData) (wakes : List Nat) : WaitResult :=
  if timeout_ms < 0 then
    waitLoop (fun sd => sd.new_image_ready) env now wakes
  else
    let end_time := now + timeout_ms.toNat
    timedWaitLoop (fun sd => sd.new_image_ready) env end_time now wakes

/-- Member `waitForProcessingDone(timeout_ms)` entered at clock `now`. -/
def waitForProcessingDone (_self : SharedMemoryManager) (timeout_ms : Int) (now : Nat)
    (env : Nat → SharedImageData) (wakes : List Nat) : WaitResult :=
  if timeout_ms < 0 then
    waitLoop (fun sd => sd.processing_done) env now wakes
  else
    let end_time := now + timeout_ms.toNat
    timedWaitLoop (fun sd => sd.processing_done) env end_time now wakes

end SharedMemoryManager

/-! ## Sequences of calls on one segment -/

/-- One call made by some party on the segment, with the handle it goes through. -/
inductive Op where
  | writeImage (mgr : SharedMemoryManager) (image : Mat)
  | readImage (mgr : SharedMemoryManager)
  | notifyNewImage (mgr : SharedMemoryManager)
  | notifyProcessingDone (mgr : SharedMemoryManager)
  | waitForNewImage (mgr : SharedMemoryManager) (timeout_ms : Int) (now : Nat)
      (wakes : List Nat)
  | waitForProcessingDone (mgr : SharedMemoryManager) (timeout_ms : Int) (now : Nat)
      (wakes : List Nat)
  | attach (name : String) (max_image_size : Nat)

namespace Op

/-- The shared state after the call.  The calls of the other parties are the other
entries of the sequence, so a wait is run with nobody else acting meanwhile, and an
`OPEN`-mode construction is run on a namespace holding the segment under its name. -/
def apply : Op → SharedImageData → SharedImageData
  | writeImage mgr image, sd => (mgr.writeImage image sd).2
  | readImage mgr, sd => (mgr.readImage sd).2
  | notifyNewImage mgr, sd => mgr.notifyNewImage sd
  | notifyProcessingDone mgr, sd => mgr.notifyProcessingDone sd
  | waitForNewImage mgr timeout_ms now wakes, sd =>
    (mgr.waitForNewImage timeout_ms now (fun _ => sd) wakes).shared
  | waitForProcessingDone mgr timeout_ms now wakes, sd =>
    (mgr.waitForProcessingDone timeout_ms now (fun _ => sd) wakes).shared
  | attach name max_image_size, sd =>
    match (SharedMemoryManager.ctor (shared_memory_object.link (fun _ => none) name sd)
        name SharedMemoryMode.OPEN max_image_size).1 name with
    | some sd1 => sd1
    | none => sd

/-- The shared state after a sequence of calls, first call first. -/
def run (ops : List Op) (sd : SharedImageData) : SharedImageData :=
  ops.foldl (fun s op => op.apply s) sd

end Op

/-- The outcome of the sequential run of one full hand-off cycle. -/
structure CycleResult where
  /-- Return value of `writeImage`. -/
  written : Option Bool
  /-- Outcome of the consumer's `waitForNewImage(-1)`. -/
  ready_wait : WaitResult
  /-- Return value of `readImage`. -/
  frame : Option Mat
  /-- Outcome of the producer's `waitForProcessingDone(1000)`. -/
  done_wait : WaitResult
  /-- The shared state at the end. -/
  final : SharedImageData
deriving DecidableEq, Repr

/-- The sequential run `create -> writeImage -> notifyNewImage -> waitForNewImage() ->
readImage -> notifyProcessingDone -> waitForProcessingDone(1000)`, started at clock
`now` with nobody else acting and no wake-up of either condition variable.  The producer
is the creating handle; `consumer` is the handle the three consumer calls go through.
No result when the creation throws. -/
def fullCycle (ns : Namespace) (name : String) (capacity : Nat)
    (consumer : SharedMemoryManager) (image : Mat) (now : Nat) : Option CycleResult :=
  match SharedMemoryManager.ctor ns name SharedMemoryMode.CREATE capacity with
  | (_, .error _) => none
  | (ns1, .ok producer) =>
    match ns1 name with
    | none => none
    | some sd0 =>
      let w := producer.writeImage image sd0
      let sd2 := producer.notifyNewImage w.2
      let rw := consumer.waitForNewImage (-1) now (fun _ => sd2) []
      let rd := consumer.readImage rw.shared
      let sd4 := consumer.notifyProcessingDone rd.2
      let dw := producer.waitForProcessingDone 1000 rw.time (fun _ => sd4) []
      some { written := w.1, ready_wait := rw, frame := rd.1, done_wait := dw,
             final := dw.shared }

/-- The contents of a segment right after its creation with `capacity`: idle flags, zeroed
metadata, zeroed arena. -/
def idleSegment (capacity : Nat) : SharedImageData :=
  { new_image_ready := false, processing_done := true, width := 0, height := 0,
    channels := 0, data_size := 0, image_data := List.replicate capacity 0 }

/-- The contents of a segment created with `capacity` once `image` has been written into
it and nothing else has happened: idle flags, the frame's metadata, the frame's bytes at
the start of the zeroed arena. -/
def writtenState (capacity : Nat) (image : Mat) : SharedImageData :=
  { new_image_ready := false, processing_done := true, width := image.cols,
    height := image.rows, channels := image.channels, data_size := image.data.length,
    image_data := image.data ++ (List.replicate capacity 0).drop image.data.length }

/-! ## The consumer: `ImageProcessor` -/

/-- The member of `ImageProcessor` that touches the segment. -/
structure ImageProcessor where
  /-- The manager, attached in `OPEN` mode. -/
  shm_manager_ : SharedMemoryManager
deriving DecidableEq, Repr

/-- What one consumer step has done when it ends. -/
structure ConsumerStep where
  /-- The shared state at the end of the step. -/
  shared : SharedImageData
  /-- Whether `notifyProcessingDone` was called. -/
  notified : Bool
  /-- Whether the step came to its end (it does not when the wait stays blocked or the
  read leaves the arena). -/
  finished : Bool
deriving DecidableEq, Repr

namespace ImageProcessor

/-- Member `processOnce`.  `completes image` tells whether `processImage` and the result
callback return normally on `image`; when they throw, the `catch` block logs and the
notification is skipped. -/
def processOnce (self : ImageProcessor) (completes : Mat → Bool) (now : Nat)
    (env : Nat → SharedImageData) (wakes : List Nat) : ConsumerStep :=
  let w := self.shm_manager_.waitForNewImage (-1) now env wakes
  match w.value with
  | none => { shared := w.shared, notified := false, finished := false }
  | some false => { shared := w.shared, notified := false, finished := true }
  | some true =>
    match self.shm_manager_.readImage w.shared with
    | (none, sd) => { shared := sd, notified := false, finished := false }
    | (some image, sd) =>
      if image.empty then
        { shared := sd, notified := false, finished := true }
      else if completes image then
        { shared := self.shm_manager_.notifyProcessingDone sd, notified := true,
          finished := true }
      else
        { shared := sd, notified := false, finished := true }

/-- One iteration of the `while (running_)` loop of member `processingLoop`. -/
def processingLoopStep (self : ImageProcessor) (completes : Mat → Bool) (now : Nat)
    (env : Nat → SharedImageData) (wakes : List Nat) : ConsumerStep :=
  let w := self.shm_manager_.waitForNewImage 100 now env wakes
  match w.value with
  | none => { shared := w.shared, notified := false, finished := false }
  | some false => { shared := w.shared, notified := false, finished := true }
  | some true =>
    match self.shm_manager_.readImage w.shared with
    | (none, sd) => { shared := sd, notified := false, finished := false }
    | (some image, sd) =>
      if !image.empty then
        if completes image then
          { shared := self.shm_manager_.notifyProcessingDone sd, notified := true,
            finished := true }
        else
          { shared := sd, notified := false, finished := true }
      else
        { shared := sd, notified := false, finished := true }

end ImageProcessor

/-! ## Concrete inputs used in the evaluations below -/

/-- A 1x1 frame of type `CV_8UC1` (one channel, one byte) holding the byte 7. -/
def grayPixel : Mat := { rows := 1, cols := 1, channels := 1, elemSize1 := 1, data := [7] }

/-- A 1x2 frame of type `CV_8UC1` holding the bytes 1, 2. -/
def grayPair : Mat := { rows := 1, cols := 2, channels := 1, elemSize1 := 1, data := [1, 2] }

/-- A 1x1 frame of type `CV_8UC3` holding the bytes 1, 2, 3. -/
def bgrPixel : Mat := { rows := 1, cols := 1, channels := 3, elemSize1 := 1, data := [1, 2, 3] }

/-- A 1x2 frame of type `CV_8UC3` holding six bytes. -/
def bgrPair : Mat :=
  { rows := 1, cols := 2, channels := 3, elemSize1 := 1, data := [1, 2, 3, 4, 5, 6] }

/-- A creator handle on `"seg1"` with capacity 4. -/
def creator4 : SharedMemoryManager := { name_ := "seg1", max_image_size_ := 4, is_creator_ := true }

/-- A creator handle on `"seg1"` with capacity 8. -/
def creator8 : SharedMemoryManager := { name_ := "seg1", max_image_size_ := 8, is_creator_ := true }

/-- An attached handle on `"seg1"` constructed with capacity 8. -/
def attached8 : SharedMemoryManager :=
  { name_ := "seg1", max_image_size_ := 8, is_creator_ := false }

/-- The header and arena of a segment of capacity 4 right after its creation. -/
def idle4 : SharedImageData :=
  { new_image_ready := false, processing_done := true, width := 0, height := 0,
    channels := 0, data_size := 0, image_data := [0, 0, 0, 0] }

/-- The header and arena of a segment of capacity 8 right after its creation. -/
def idle8 : SharedImageData :=
  { new_image_ready := false, processing_done := true, width := 0, height := 0,
    channels := 0, data_size := 0, image_data := [0, 0, 0, 0, 0, 0, 0, 0] }

/-- A segment of capacity 8 holding a pending 1x2 one-channel frame of two bytes. -/
def pendingGray8 : SharedImageData :=
  { new_image_ready := true, processing_done := false, width := 2, height := 1,
    channels := 1, data_size := 2, image_data := [1, 2, 3, 4, 5, 6, 0, 0] }

/-- A segment of capacity 8 holding a pending 1x2 three-channel frame of six bytes. -/
def pendingBgr8 : SharedImageData :=
  { new_image_ready := true, processing_done := false, width := 2, height := 1,
    channels := 3, data_size := 6, image_data := [1, 2, 3, 4, 5, 6, 0, 0] }

/-- The namespace with no object linked. -/
def emptyNamespace : Namespace := fun _ => none

/-- The namespace after a first `CREATE` of `"seg1"` with capacity 8. -/
def seg1Namespace : Namespace :=
  (SharedMemoryManager.ctor emptyNamespace "seg1" SharedMemoryMode.CREATE 8).1

/-- A namespace in which `"seg1"` holds a pending frame. -/
def busyNamespace : Namespace :=
  fun n => if n = "seg1" then some pendingBgr8 else none

/-- A handle attached to `"seg1"` with the default `max_image_size`. -/
def attachedDefault : SharedMemoryManager :=
  { name_ := "seg1", max_image_size_ := default_max_image_size, is_creator_ := false }

/-- A header of capacity 8 with both flags set. -/
def bothSet8 : SharedImageData := { idle8 with new_image_ready := true }

/-- A header of capacity 8 with both flags clear. -/
def bothClear8 : SharedImageData := { idle8 with processing_done := false }

/-- A pending header of capacity 8 into which no frame was written. -/
def pendingEmpty8 : SharedImageData :=
  { idle8 with new_image_ready := true, processing_done := false }

/-- An environment in which the idle segment of capacity 8 receives the pending
three-channel frame at clock 5. -/
def frameAtFive : Nat → SharedImageData :=
  fun t => if t < 5 then idle8 else pendingBgr8

/-- A 10x25 frame of type `CV_8UC2` (two channels of one byte): 500 bytes, all 7. -/
def twoChannel500 : Mat :=
  { rows := 10, cols := 25, channels := 2, elemSize1 := 1, data := List.replicate 500 7 }

/-- What `readImage` returns after `twoChannel500` was written into a fresh segment of
capacity 1000: a 10x25 `CV_8UC3` frame of 750 bytes. -/
def misread750 : Mat :=
  { rows := 10, cols := 25, channels := 3, elemSize1 := 1,
    data := List.replicate 500 7 ++ List.replicate 250 0 }

/-- One full cycle on the segment, by the creator and an attached consumer. -/
def cycleOps : List Op :=
  [ Op.attach "seg1" 8,
    Op.writeImage creator8 bgrPair,
    Op.notifyNewImage creator8,
    Op.waitForNewImage attached8 (-1) 0 [],
    Op.readImage attached8,
    Op.notifyProcessingDone attached8,
    Op.waitForProcessingDone creator8 1000 0 [] ]

/-- An attach with the default size followed by a six-byte write through that handle. -/
def oversizeOps : List Op :=
  [ Op.attach "seg1" default_max_image_size,
    Op.writeImage attachedDefault bgrPair ]

/-! ## Auxiliary facts -/

theorem Mat.data_size_eq_length (image : Mat) (hwf : image.wellFormed) :
    (image.total * image.elemSize) % SIZE_MOD = image.data.length := by
  obtain ⟨_, _, hlen, hlt⟩ := hwf
  rw [← hlen]
  exact Nat.mod_eq_of_lt hlt

theorem Mat.dims_ne_zero_of_not_empty (image : Mat) (hne : image.empty = false) :
    image.rows ≠ 0 ∧ image.cols ≠ 0 ∧ image.data ≠ [] := by
  unfold Mat.empty Mat.total at hne
  simp only [Bool.or_eq_false_iff, List.isEmpty_eq_false, beq_eq_false_iff_ne, ne_eq,
    Nat.mul_eq_zero, not_or] at hne
  exact ⟨hne.2.1, hne.2.2, hne.1⟩

theorem memcpy_whole (arena src : List Byte) :
    memcpy arena src src.length = src ++ arena.drop src.length := by
  unfold memcpy
  rw [List.take_length]

/-- The successful path of `writeImage` in closed form. -/
theorem SharedMemoryManager.writeImage_success (mgr : SharedMemoryManager) (image : Mat)
    (sd : SharedImageData) (hwf : image.wellFormed) (hne : image.empty = false)
    (hcap : image.total * image.elemSize ≤ mgr.max_image_size_)
    (hfit : image.total * image.elemSize ≤ sd.image_data.length) :
    mgr.writeImage image sd =
      (some true,
        { sd with
          width := image.cols
          height := image.rows
          channels := image.channels
          data_size := image.data.length
          image_data := image.data ++ sd.image_data.drop image.data.length }) := by
  have hsz := image.data_size_eq_length hwf
  have hlen : image.data.length = image.total * image.elemSize := hwf.2.2.1
  unfold SharedMemoryManager.writeImage
  simp only [hne, hsz, Bool.false_eq_true, if_false]
  rw [if_neg (by omega), if_pos (by omega), memcpy_whole]

/-- A handle that leaves the constructor carries the arguments it was built from. -/
theorem SharedMemoryManager.ctor_ok_handle (ns ns1 : Namespace) (name : String)
    (mode : SharedMemoryMode) (cap : Nat) (h : SharedMemoryManager)
    (hctor : SharedMemoryManager.ctor ns name mode cap = (ns1, .ok h)) :
    h = { name_ := name, max_image_size_ := cap,
          is_creator_ := decide (mode = SharedMemoryMode.CREATE) } := by
  unfold SharedMemoryManager.ctor at hctor
  cases mode
  · simp only [shared_memory_object.create_only] at hctor
    split at hctor
    · simp at hctor
    · simp at hctor
      exact hctor.2.symm
  · simp only [shared_memory_object.open_only] at hctor
    split at hctor
    · simp at hctor
    · simp at hctor
      exact hctor.2.symm

/-- The bounded loop after the last wake-up, in closed form. -/
theorem timedWaitLoop_nil (flag : SharedImageData → Bool) (env : Nat → SharedImageData)
    (end_time t : Nat) :
    timedWaitLoop flag env end_time t [] =
      if flag (env t) then
        { value := some true, time := t, shared := env t, deadlines := [] }
      else
        { value := some false, time := end_time, shared := env end_time,
          deadlines := [end_time] } := by
  rw [timedWaitLoop]
  rfl

/-- The bounded loop before a wake-up at `w`, in closed form. -/
theorem timedWaitLoop_cons (flag : SharedImageData → Bool) (env : Nat → SharedImageData)
    (end_time t w : Nat) (ws : List Nat) :
    timedWaitLoop flag env end_time t (w :: ws) =
      if flag (env t) then
        { value := some true, time := t, shared := env t, deadlines := [] }
      else if w < end_time then
        if flag (env w) then
          { value := some true, time := w, shared := env w, deadlines := [end_time] }
        else
          { timedWaitLoop flag env end_time w ws with
            deadlines := end_time :: (timedWaitLoop flag env end_time w ws).deadlines }
      else
        { value := some false, time := end_time, shared := env end_time,
          deadlines := [end_time] } := by
  rw [timedWaitLoop]
  simp only [timed_wait]
  by_cases hf : flag (env t) = true
  · simp [hf]
  · by_cases hw : w < end_time
    · simp [hf, hw]
    · simp [hf, hw]


/-- A wait hands back the state the environment shows at the moment it ends. -/
theorem waitLoop_shared (flag : SharedImageData → Bool) (env : Nat → SharedImageData)
    (wakes : List Nat) (t : Nat) :
    (waitLoop flag env t wakes).shared = env (waitLoop flag env t wakes).time := by
  induction wakes generalizing t with
  | nil => unfold waitLoop; split_ifs <;> rfl
  | cons w ws ih =>
    unfold waitLoop
    split_ifs
    · rfl
    · exact ih w

theorem timedWaitLoop_shared (flag : SharedImageData → Bool) (env : Nat → SharedImageData)
    (end_time : Nat) (wakes : List Nat) (t : Nat) :
    (timedWaitLoop flag env end_time t wakes).shared
      = env (timedWaitLoop flag env end_time t wakes).time := by
  induction wakes generalizing t with
  | nil => rw [timedWaitLoop_nil]; split_ifs <;> rfl
  | cons w ws ih =>
    rw [timedWaitLoop_cons]
    split_ifs
    · rfl
    · rfl
    · exact ih w
    · rfl

/-- A wait that returns `true` ends in a state where its flag is set. -/
theorem waitLoop_true (flag : SharedImageData → Bool) (env : Nat → SharedImageData)
    (wakes : List Nat) (t : Nat)
    (h : (waitLoop flag env t wakes).value = some true) :
    flag (waitLoop flag env t wakes).shared = true := by
  induction wakes generalizing t with
  | nil =>
    unfold waitLoop at h ⊢
    split_ifs at h ⊢ with hf
    exact hf
  | cons w ws ih =>
    unfold waitLoop at h ⊢
    split_ifs at h ⊢ with hf
    · exact hf
    · exact ih w h

theorem timedWaitLoop_true (flag : SharedImageData → Bool) (env : Nat → SharedImageData)
    (end_time : Nat) (wakes : List Nat) (t : Nat)
    (h : (timedWaitLoop flag env end_time t wakes).value = some true) :
    flag (timedWaitLoop flag env end_time t wakes).shared = true := by
  induction wakes generalizing t with
  | nil =>
    rw [timedWaitLoop_nil] at h ⊢
    split_ifs at h ⊢ with hf
    · exact hf
    · simp at h
  | cons w ws ih =>
    rw [timedWaitLoop_cons] at h ⊢
    split_ifs at h ⊢ with hf hw hf2
    · exact hf
    · exact hf2
    · exact ih w h
    · simp at h

/-- A wait entered with its flag set returns `true` at once, whatever follows. -/
theorem waitLoop_of_flag (flag : SharedImageData → Bool) (env : Nat → SharedImageData)
    (wakes : List Nat) (t : Nat) (hf : flag (env t) = true) :
    waitLoop flag env t wakes
      = { value := some true, time := t, shared := env t, deadlines := [] } := by
  cases wakes <;> simp [waitLoop, hf]

theorem timedWaitLoop_of_flag (flag : SharedImageData → Bool)
    (env : Nat → SharedImageData) (end_time : Nat) (wakes : List Nat) (t : Nat)
    (hf : flag (env t) = true) :
    timedWaitLoop flag env end_time t wakes
      = { value := some true, time := t, shared := env t, deadlines := [] } := by
  cases wakes
  · rw [timedWaitLoop_nil, if_pos hf]
  · rw [timedWaitLoop_cons, if_pos hf]

/-- A bounded wait always returns, every `timed_wait` call in it is given `end_time`,
and it ends no later than `end_time` when entered no later than that. -/
theorem timedWaitLoop_bounded (flag : SharedImageData → Bool) (env : Nat → SharedImageData)
    (end_time : Nat) (wakes : List Nat) (t : Nat) (ht : t ≤ end_time) :
    (timedWaitLoop flag env end_time t wakes).value ≠ none ∧
    (∀ d ∈ (timedWaitLoop flag env end_time t wakes).deadlines, d = end_time) ∧
    (timedWaitLoop flag env end_time t wakes).time ≤ end_time := by
  induction wakes generalizing t with
  | nil =>
    rw [timedWaitLoop_nil]
    split_ifs <;> simp [ht]
  | cons w ws ih =>
    rw [timedWaitLoop_cons]
    split_ifs with hf hw hf2
    · simp [ht]
    · simp [Nat.le_of_lt hw]
    · obtain ⟨h1, h2, h3⟩ := ih w (Nat.le_of_lt hw)
      refine ⟨h1, ?_, h3⟩
      intro d hd
      rcases List.mem_cons.mp hd with hd | hd
      · exact hd
      · exact h2 d hd
    · simp

/-- A bounded wait whose flag stays clear ends with `false` exactly at `end_time`,
however many wake-ups come before. -/
theorem timedWaitLoop_timeout (flag : SharedImageData → Bool) (env : Nat → SharedImageData)
    (end_time : Nat) (wakes : List Nat) (t : Nat) (hclear : ∀ u, flag (env u) = false) :
    (timedWaitLoop flag env end_time t wakes).value = some false ∧
    (timedWaitLoop flag env end_time t wakes).time = end_time := by
  induction wakes generalizing t with
  | nil =>
    rw [timedWaitLoop_nil]
    simp [hclear]
  | cons w ws ih =>
    rw [timedWaitLoop_cons]
    by_cases hw : w < end_time
    · simp only [hclear, hw, if_true, if_false, Bool.false_eq_true]
      exact ih w
    · simp [hclear, hw]

/-- With nobody else acting, either wait leaves the shared state as it found it. -/
theorem SharedMemoryManager.waitForNewImage_shared_const (mgr : SharedMemoryManager)
    (timeout_ms : Int) (now : Nat) (wakes : List Nat) (sd : SharedImageData) :
    (mgr.waitForNewImage timeout_ms now (fun _ => sd) wakes).shared = sd := by
  unfold SharedMemoryManager.waitForNewImage
  split_ifs
  · rw [waitLoop_shared]
  · rw [timedWaitLoop_shared]

theorem SharedMemoryManager.waitForProcessingDone_shared_const (mgr : SharedMemoryManager)
    (timeout_ms : Int) (now : Nat) (wakes : List Nat) (sd : SharedImageData) :
    (mgr.waitForProcessingDone timeout_ms now (fun _ => sd) wakes).shared = sd := by
  unfold SharedMemoryManager.waitForProcessingDone
  split_ifs
  · rw [waitLoop_shared]
  · rw [timedWaitLoop_shared]

/-- `readImage` hands the shared state back as it was. -/
theorem SharedMemoryManager.readImage_shared (mgr : SharedMemoryManager)
    (sd : SharedImageData) : (mgr.readImage sd).2 = sd := by
  unfold SharedMemoryManager.readImage
  split_ifs <;> rfl

/-- The body of `writeImage` with its local variables expanded. -/
theorem SharedMemoryManager.writeImage_eq (mgr : SharedMemoryManager) (image : Mat)
    (sd : SharedImageData) :
    mgr.writeImage image sd =
      if image.empty then (some false, sd)
      else if (image.total * image.elemSize) % SIZE_MOD > mgr.max_image_size_ then
        (some false, sd)
      else if (image.total * image.elemSize) % SIZE_MOD ≤ sd.image_data.length then
        (some true,
          { sd with
            width := image.cols
            height := image.rows
            channels := image.channels
            data_size := (image.total * image.elemSize) % SIZE_MOD
            image_data :=
              memcpy sd.image_data image.data ((image.total * image.elemSize) % SIZE_MOD) })
      else
        (none,
          { sd with
            width := image.cols
            height := image.rows
            channels := image.channels
            data_size := (image.total * image.elemSize) % SIZE_MOD }) := rfl

/-- `writeImage` never stores into the flags. -/
theorem SharedMemoryManager.writeImage_flags (mgr : SharedMemoryManager) (image : Mat)
    (sd : SharedImageData) :
    (mgr.writeImage image sd).2.new_image_ready = sd.new_image_ready ∧
    (mgr.writeImage image sd).2.processing_done = sd.processing_done := by
  rw [SharedMemoryManager.writeImage_eq]
  split_ifs <;> exact ⟨rfl, rfl⟩

/-- The `data_size` left by `writeImage` is the old one or at most the handle's limit. -/
theorem SharedMemoryManager.writeImage_data_size (mgr : SharedMemoryManager) (image : Mat)
    (sd : SharedImageData) :
    (mgr.writeImage image sd).2.data_size = sd.data_size ∨
    (mgr.writeImage image sd).2.data_size ≤ mgr.max_image_size_ := by
  rw [SharedMemoryManager.writeImage_eq]
  split_ifs with h1 h2 h3
  · exact Or.inl rfl
  · exact Or.inl rfl
  · exact Or.inr (Nat.le_of_not_gt h2)
  · exact Or.inr (Nat.le_of_not_gt h2)

/-- An `OPEN`-mode construction leaves the segment as it was. -/
theorem Op.apply_attach (name : String) (cap : Nat) (sd : SharedImageData) :
    (Op.attach name cap).apply sd = sd := by
  simp [Op.apply, SharedMemoryManager.ctor, shared_memory_object.open_only,
    shared_memory_object.link]

/-- A property kept by every call of a sequence holds after the sequence. -/
theorem Op.run_invariant (P : SharedImageData → Prop) (ops : List Op)
    (hstep : ∀ op ∈ ops, ∀ s, P s → P (op.apply s)) (sd : SharedImageData) (h0 : P sd) :
    P (Op.run ops sd) := by
  induction ops generalizing sd with
  | nil => exact h0
  | cons op rest ih =>
    have hrun : Op.run (op :: rest) sd = Op.run rest (op.apply sd) := rfl
    rw [hrun]
    apply ih
    · intro o ho s hs
      exact hstep o (List.mem_cons_of_mem op ho) s hs
    · exact hstep op (List.mem_cons_self op rest) sd h0

/-- The segment linked by a successful `CREATE` is idle with zeroed fields. -/
theorem SharedMemoryManager.ctor_create_segment (ns : Namespace) (name : String) (cap : Nat)
    (hfree : ns name = none) :
    (SharedMemoryManager.ctor ns name SharedMemoryMode.CREATE cap).1 name =
      some { new_image_ready := false, processing_done := true, width := 0, height := 0,
             channels := 0, data_size := 0, image_data := List.replicate cap 0 } ∧
    (SharedMemoryManager.ctor ns name SharedMemoryMode.CREATE cap).2 =
      .ok { name_ := name, max_image_size_ := cap, is_creator_ := true } := by
  unfold SharedMemoryManager.ctor
  simp [shared_memory_object.create_only, shared_memory_object.link,
    shared_memory_object.truncate, hfree]

/-- A successful `CREATE` construction in closed form. -/
theorem SharedMemoryManager.ctor_create_eq (ns : Namespace) (name : String) (cap : Nat)
    (hfree : ns name = none) :
    SharedMemoryManager.ctor ns name SharedMemoryMode.CREATE cap =
      (shared_memory_object.link ns name (idleSegment cap),
        .ok { name_ := name, max_image_size_ := cap, is_creator_ := true }) := by
  unfold SharedMemoryManager.ctor
  simp [shared_memory_object.create_only, shared_memory_object.truncate, hfree, idleSegment]

/-- A wait for a new image entered with `new_image_ready` set returns `true` at once. -/
theorem SharedMemoryManager.waitForNewImage_of_ready (mgr : SharedMemoryManager)
    (timeout_ms : Int) (now : Nat) (env : Nat → SharedImageData) (wakes : List Nat)
    (hready : (env now).new_image_ready = true) :
    mgr.waitForNewImage timeout_ms now env wakes =
      { value := some true, time := now, shared := env now, deadlines := [] } := by
  unfold SharedMemoryManager.waitForNewImage
  split_ifs
  · exact waitLoop_of_flag _ env wakes now hready
  · exact timedWaitLoop_of_flag _ env _ wakes now hready

/-- A wait for completion entered with `processing_done` set returns `true` at once. -/
theorem SharedMemoryManager.waitForProcessingDone_of_done (mgr : SharedMemoryManager)
    (timeout_ms : Int) (now : Nat) (env : Nat → SharedImageData) (wakes : List Nat)
    (hdone : (env now).processing_done = true) :
    mgr.waitForProcessingDone timeout_ms now env wakes =
      { value := some true, time := now, shared := env now, deadlines := [] } := by
  unfold SharedMemoryManager.waitForProcessingDone
  split_ifs
  · exact waitLoop_of_flag _ env wakes now hdone
  · exact timedWaitLoop_of_flag _ env _ wakes now hdone

/-- The full cycle in closed form, for a frame that `writeImage` accepts. -/
theorem fullCycle_eq (ns : Namespace) (name : String) (cap : Nat)
    (consumer : SharedMemoryManager) (image : Mat) (now : Nat) (hfree : ns name = none)
    (hwf : image.wellFormed) (hne : image.empty = false)
    (hcap : image.total * image.elemSize ≤ cap) :
    fullCycle ns name cap consumer image now =
      some { written := some true,
             ready_wait :=
               { value := some true, time := now,
                 shared := { writtenState cap image with
                   new_image_ready := true, processing_done := false },
                 deadlines := [] },
             frame := (consumer.readImage { writtenState cap image with
                   new_image_ready := true, processing_done := false }).1,
             done_wait :=
               { value := some true, time := now, shared := writtenState cap image,
                 deadlines := [] },
             final := writtenState cap image } := by
  have hw : SharedMemoryManager.writeImage
      { name_ := name, max_image_size_ := cap, is_creator_ := true } image (idleSegment cap)
      = (some true, writtenState cap image) :=
    SharedMemoryManager.writeImage_success
      { name_ := name, max_image_size_ := cap, is_creator_ := true } image (idleSegment cap)
      hwf hne hcap (by simpa [idleSegment] using hcap)
  have hlink : shared_memory_object.link ns name (idleSegment cap) name
      = some (idleSegment cap) := by
    simp [shared_memory_object.link]
  unfold fullCycle
  rw [SharedMemoryManager.ctor_create_eq ns name cap hfree]
  simp only [hlink, hw]
  rw [SharedMemoryManager.waitForNewImage_of_ready _ _ _ _ _ rfl]
  simp only [SharedMemoryManager.readImage_shared]
  rw [SharedMemoryManager.waitForProcessingDone_of_done _ _ _ _ _ rfl]
  rfl

/-- Reading back a written `CV_8UC3` frame gives its bytes and dimensions, whatever the
flags are at that moment. -/
theorem SharedMemoryManager.readImage_writtenState (rd : SharedMemoryManager) (cap : Nat)
    (image : Mat) (ready done : Bool) (hwf : image.wellFormed) (hne : image.empty = false)
    (h3 : image.isCV_8UC3) :
    (rd.readImage { writtenState cap image with
        new_image_ready := ready, processing_done := done }).1 =
      some { rows := image.rows, cols := image.cols, channels := 3, elemSize1 := 1,
             data := image.data } := by
  obtain ⟨hr, hc, hd⟩ := image.dims_ne_zero_of_not_empty hne
  obtain ⟨hrmax, hcmax, hlen, -⟩ := hwf
  obtain ⟨hch, he1⟩ := h3
  have hbytes : image.rows * image.cols * 3 = image.data.length := by
    rw [hlen]; unfold Mat.total Mat.elemSize; rw [hch, he1]
  have hlen0 : image.data.length ≠ 0 := fun h => hd (List.length_eq_zero.mp h)
  unfold SharedMemoryManager.readImage
  simp only [writtenState, hr, hc, hlen0, or_self, if_false, hbytes]
  rw [if_neg (by omega), if_neg (by simp)]
  simp

/-! ## Writing and reading a frame -/

/-- C1 as stated fails on a one-channel frame: on the segment `"seg1"` just created with
capacity 4, the 1x1 `CV_8UC1` frame `[7]` fits the capacity and is written successfully,
but `readImage` rebuilds the frame as `CV_8UC3` and returns three bytes and a channel
count of 3, so no frame with the written bytes and the written channel count comes
back. -/
theorem writeImage_readImage_gray_counterexample :
    (SharedMemoryManager.ctor emptyNamespace "seg1" SharedMemoryMode.CREATE 4).2
      = .ok creator4 ∧
    (SharedMemoryManager.ctor emptyNamespace "seg1" SharedMemoryMode.CREATE 4).1 "seg1"
      = some idle4 ∧
    grayPixel.wellFormed ∧
    grayPixel.total * grayPixel.elemSize ≤ creator4.max_image_size_ ∧
    grayPixel.total * grayPixel.elemSize ≤ idle4.image_data.length ∧
    (creator4.writeImage grayPixel idle4).1 = some true ∧
    (creator4.readImage (creator4.writeImage grayPixel idle4).2).1 =
      some { rows := 1, cols := 1, channels := 3, elemSize1 := 1, data := [7, 0, 0] } ∧
    ¬ ∃ m : Mat, (creator4.readImage (creator4.writeImage grayPixel idle4).2).1 = some m ∧
        m.data = grayPixel.data ∧ m.cols = grayPixel.cols ∧ m.rows = grayPixel.rows ∧
        m.channels = grayPixel.channels := by
  refine ⟨rfl, by decide, by decide, by decide, by decide, by decide, by decide, ?_⟩
  rintro ⟨m, hm, hdata, -, -, -⟩
  have hread : (creator4.readImage (creator4.writeImage grayPixel idle4).2).1 =
      some { rows := 1, cols := 1, channels := 3, elemSize1 := 1, data := [7, 0, 0] } := by
    decide
  rw [hread] at hm
  cases hm
  revert hdata
  decide

/-- C1 (amended): for every non-empty frame of type `CV_8UC3` whose payload is at most the
writing handle's capacity and fits the arena, `writeImage` succeeds and a following
`readImage` (through any handle on the segment) returns a frame with the written bytes
and the written width, height and channel count. -/
theorem writeImage_readImage_roundtrip (mgr rd : SharedMemoryManager) (image : Mat)
    (sd : SharedImageData) (hwf : image.wellFormed) (hne : image.empty = false)
    (h3 : image.isCV_8UC3)
    (hcap : image.total * image.elemSize ≤ mgr.max_image_size_)
    (hfit : image.total * image.elemSize ≤ sd.image_data.length) :
    (mgr.writeImage image sd).1 = some true ∧
    ∃ m : Mat, (rd.readImage (mgr.writeImage image sd).2).1 = some m ∧
      m.data = image.data ∧ m.cols = image.cols ∧ m.rows = image.rows ∧
      m.channels = image.channels ∧ m.elemSize1 = image.elemSize1 := by
  rw [mgr.writeImage_success image sd hwf hne hcap hfit]
  obtain ⟨hr, hc, hd⟩ := image.dims_ne_zero_of_not_empty hne
  obtain ⟨hrmax, hcmax, hlen, -⟩ := hwf
  obtain ⟨hch, he1⟩ := h3
  have hbytes : image.rows * image.cols * 3 = image.data.length := by
    rw [hlen]; unfold Mat.total Mat.elemSize; rw [hch, he1]
  have hlen0 : image.data.length ≠ 0 := fun h => hd (List.length_eq_zero.mp h)
  refine ⟨rfl, ?_⟩
  unfold SharedMemoryManager.readImage
  simp only [hr, hc, hlen0, or_self, if_false, hbytes]
  rw [if_neg (by omega), if_neg (by simp)]
  refine ⟨_, rfl, ?_, rfl, rfl, hch.symm, he1.symm⟩
  simp

/-- Witness for C1 (amended): the 1x1 `CV_8UC3` frame `[1, 2, 3]` on a fresh segment of
capacity 4, written by the creator and read through an attached handle. -/
theorem writeImage_readImage_roundtrip_witness :
    (creator4.writeImage bgrPixel idle4).1 = some true ∧
    ∃ m : Mat, (attached8.readImage (creator4.writeImage bgrPixel idle4).2).1 = some m ∧
      m.data = bgrPixel.data ∧ m.cols = bgrPixel.cols ∧ m.rows = bgrPixel.rows ∧
      m.channels = bgrPixel.channels ∧ m.elemSize1 = bgrPixel.elemSize1 :=
  writeImage_readImage_roundtrip creator4 attached8 bgrPixel idle4
    (by decide) (by decide) (by decide) (by decide) (by decide)

/-- C2: a frame whose payload exceeds the handle's `max_image_size_` is rejected:
`writeImage` returns `false` and the header and the arena are exactly as before. -/
theorem writeImage_too_large (mgr : SharedMemoryManager) (image : Mat) (sd : SharedImageData)
    (hwf : image.wellFormed) (hbig : mgr.max_image_size_ < image.total * image.elemSize) :
    mgr.writeImage image sd = (some false, sd) := by
  have hsz := image.data_size_eq_length hwf
  have hlen : image.data.length = image.total * image.elemSize := hwf.2.2.1
  unfold SharedMemoryManager.writeImage
  by_cases he : image.empty = true
  · simp [he]
  · rw [← hlen] at hbig
    simp only [he, hsz, Bool.false_eq_true, if_false]
    rw [if_pos hbig]

/-- Witness for C2: the six-byte frame does not fit a handle of capacity 4. -/
theorem writeImage_too_large_witness :
    creator4.max_image_size_ < bgrPair.total * bgrPair.elemSize ∧
    creator4.writeImage bgrPair pendingGray8 = (some false, pendingGray8) :=
  ⟨by decide, writeImage_too_large creator4 bgrPair pendingGray8 (by decide) (by decide)⟩

/-- C3: for a non-empty frame whose payload is at most the handle's capacity and fits the
arena, `writeImage` returns `true`; afterwards `width`, `height`, `channels` and
`data_size` are the frame's columns, rows, channel count and byte length, the first
`data_size` bytes of the arena are the frame's bytes, and both flags are as before. -/
theorem writeImage_effect (mgr : SharedMemoryManager) (image : Mat) (sd : SharedImageData)
    (hwf : image.wellFormed) (hne : image.empty = false)
    (hcap : image.total * image.elemSize ≤ mgr.max_image_size_)
    (hfit : image.total * image.elemSize ≤ sd.image_data.length) :
    (mgr.writeImage image sd).1 = some true ∧
    (mgr.writeImage image sd).2.width = image.cols ∧
    (mgr.writeImage image sd).2.height = image.rows ∧
    (mgr.writeImage image sd).2.channels = image.channels ∧
    (mgr.writeImage image sd).2.data_size = image.data.length ∧
    (mgr.writeImage image sd).2.data_size = image.total * image.elemSize ∧
    (mgr.writeImage image sd).2.image_data.take (mgr.writeImage image sd).2.data_size
      = image.data ∧
    (mgr.writeImage image sd).2.new_image_ready = sd.new_image_ready ∧
    (mgr.writeImage image sd).2.processing_done = sd.processing_done := by
  rw [mgr.writeImage_success image sd hwf hne hcap hfit]
  refine ⟨rfl, rfl, rfl, rfl, rfl, hwf.2.2.1, ?_, rfl, rfl⟩
  simp

/-- Witness for C3: the six-byte frame written over a pending one-channel frame. -/
theorem writeImage_effect_witness :
    (creator8.writeImage bgrPair pendingGray8).1 = some true ∧
    (creator8.writeImage bgrPair pendingGray8).2.width = bgrPair.cols ∧
    (creator8.writeImage bgrPair pendingGray8).2.height = bgrPair.rows ∧
    (creator8.writeImage bgrPair pendingGray8).2.channels = bgrPair.channels ∧
    (creator8.writeImage bgrPair pendingGray8).2.data_size = bgrPair.data.length ∧
    (creator8.writeImage bgrPair pendingGray8).2.data_size = bgrPair.total * bgrPair.elemSize ∧
    (creator8.writeImage bgrPair pendingGray8).2.image_data.take
      (creator8.writeImage bgrPair pendingGray8).2.data_size = bgrPair.data ∧
    (creator8.writeImage bgrPair pendingGray8).2.new_image_ready
      = pendingGray8.new_image_ready ∧
    (creator8.writeImage bgrPair pendingGray8).2.processing_done
      = pendingGray8.processing_done :=
  writeImage_effect creator8 bgrPair pendingGray8 (by decide) (by decide) (by decide)
    (by decide)

/-- C4 as stated fails on a one-channel frame: after the 1x2 `CV_8UC1` frame `[1, 2]` is
written over a six-byte frame the header has `width = 2`, `height = 1`, `data_size = 2`,
and `readImage` copies `height * width * 3 = 6` bytes out of the arena, not the first
`data_size = 2` bytes. -/
theorem readImage_data_size_counterexample :
    creator8.writeImage grayPair pendingBgr8 = (some true, pendingGray8) ∧
    (attached8.readImage pendingGray8).1 =
      some { rows := 1, cols := 2, channels := 3, elemSize1 := 1,
             data := [1, 2, 3, 4, 5, 6] } ∧
    pendingGray8.image_data.take pendingGray8.data_size = [1, 2] ∧
    ¬ ∃ m : Mat, (attached8.readImage pendingGray8).1 = some m ∧
        m.data = pendingGray8.image_data.take pendingGray8.data_size := by
  refine ⟨by decide, by decide, by decide, ?_⟩
  rintro ⟨m, hm, hdata⟩
  have hread : (attached8.readImage pendingGray8).1 =
      some { rows := 1, cols := 2, channels := 3, elemSize1 := 1,
             data := [1, 2, 3, 4, 5, 6] } := by decide
  rw [hread] at hm
  cases hm
  revert hdata
  decide

/-- C4 (amended): `readImage` never changes the header or the arena; it returns the empty
frame when `width`, `height` or `data_size` is zero, and otherwise, when both dimensions
fit an `int` and `height * width * 3` bytes lie inside the arena, a `CV_8UC3` frame of
`height` rows and `width` columns whose data is a copy of exactly the first
`height * width * 3` bytes of the arena (the first `data_size` bytes when `data_size`
equals that product). -/
theorem readImage_copies_frame (rd : SharedMemoryManager) (sd : SharedImageData) :
    (rd.readImage sd).2 = sd ∧
    (sd.width = 0 ∨ sd.height = 0 ∨ sd.data_size = 0 →
      (rd.readImage sd).1 = some Mat.mk0 ∧ Mat.mk0.empty = true ∧ Mat.mk0.data = []) ∧
    (¬ (sd.width = 0 ∨ sd.height = 0 ∨ sd.data_size = 0) →
      sd.height ≤ INT_MAX → sd.width ≤ INT_MAX →
      sd.height * sd.width * 3 ≤ sd.image_data.length →
      (rd.readImage sd).1 =
        some { rows := sd.height, cols := sd.width, channels := 3, elemSize1 := 1,
               data := sd.image_data.take (sd.height * sd.width * 3) } ∧
      (sd.data_size = sd.height * sd.width * 3 →
        (rd.readImage sd).1 =
          some { rows := sd.height, cols := sd.width, channels := 3, elemSize1 := 1,
                 data := sd.image_data.take sd.data_size })) := by
  refine ⟨?_, ?_, ?_⟩
  · unfold SharedMemoryManager.readImage
    split_ifs <;> rfl
  · intro hz
    refine ⟨?_, by decide, rfl⟩
    unfold SharedMemoryManager.readImage
    rw [if_pos hz]
  · intro hnz hh hw hfit
    have hread : (rd.readImage sd).1 =
        some { rows := sd.height, cols := sd.width, channels := 3, elemSize1 := 1,
               data := sd.image_data.take (sd.height * sd.width * 3) } := by
      unfold SharedMemoryManager.readImage
      rw [if_neg hnz, if_neg (by omega), if_neg (by omega)]
    refine ⟨hread, ?_⟩
    intro hsz
    rw [hread, hsz]

/-- Witness for C4 (amended): an empty result on the fresh segment, and the six bytes of
a pending 1x2 three-channel frame. -/
theorem readImage_copies_frame_witness :
    ((attached8.readImage idle4).1 = some Mat.mk0 ∧ Mat.mk0.empty = true ∧
      Mat.mk0.data = []) ∧
    (attached8.readImage pendingBgr8).2 = pendingBgr8 ∧
    (attached8.readImage pendingBgr8).1 =
      some { rows := 1, cols := 2, channels := 3, elemSize1 := 1,
             data := [1, 2, 3, 4, 5, 6] } ∧
    (attached8.readImage pendingBgr8).1 =
      some { rows := pendingBgr8.height, cols := pendingBgr8.width, channels := 3,
             elemSize1 := 1,
             data := pendingBgr8.image_data.take pendingBgr8.data_size } :=
  ⟨(readImage_copies_frame attached8 idle4).2.1 (by decide),
   (readImage_copies_frame attached8 pendingBgr8).1,
   ((readImage_copies_frame attached8 pendingBgr8).2.2 (by decide) (by decide) (by decide)
      (by decide)).1,
   ((readImage_copies_frame attached8 pendingBgr8).2.2 (by decide) (by decide) (by decide)
      (by decide)).2 (by decide)⟩

/-! ## Creating, attaching and destroying -/

/-- C5: constructing in `CREATE` mode under a name that is not linked succeeds for every
capacity, yields a creator handle, and links a segment whose header is idle
(`new_image_ready = false`, `processing_done = true`) with `width`, `height`, `channels`
and `data_size` all zero and an arena of the requested capacity. -/
theorem ctor_create_initial_state (ns : Namespace) (name : String) (cap : Nat)
    (hfree : ns name = none) :
    (SharedMemoryManager.ctor ns name SharedMemoryMode.CREATE cap).2 =
      .ok { name_ := name, max_image_size_ := cap, is_creator_ := true } ∧
    ∃ sd : SharedImageData,
      (SharedMemoryManager.ctor ns name SharedMemoryMode.CREATE cap).1 name = some sd ∧
      sd.new_image_ready = false ∧ sd.processing_done = true ∧
      sd.width = 0 ∧ sd.height = 0 ∧ sd.channels = 0 ∧ sd.data_size = 0 ∧
      sd.image_data.length = cap := by
  unfold SharedMemoryManager.ctor
  simp [shared_memory_object.create_only, shared_memory_object.link,
    shared_memory_object.truncate, hfree]

/-- Witness for C5: creating `"seg1"` with capacity 1000 in the empty namespace. -/
theorem ctor_create_initial_state_witness :
    emptyNamespace "seg1" = none ∧
    (SharedMemoryManager.ctor emptyNamespace "seg1" SharedMemoryMode.CREATE 1000).2 =
      .ok { name_ := "seg1", max_image_size_ := 1000, is_creator_ := true } ∧
    ∃ sd : SharedImageData,
      (SharedMemoryManager.ctor emptyNamespace "seg1" SharedMemoryMode.CREATE 1000).1 "seg1"
        = some sd ∧
      sd.new_image_ready = false ∧ sd.processing_done = true ∧
      sd.width = 0 ∧ sd.height = 0 ∧ sd.channels = 0 ∧ sd.data_size = 0 ∧
      sd.image_data.length = 1000 :=
  ⟨rfl, ctor_create_initial_state emptyNamespace "seg1" 1000 rfl⟩

/-- C6: constructing in `CREATE` mode under a name that is already linked fails with
`already_exists_error`; the exception that leaves the constructor is the one raised by
`bip::shared_memory_object(create_only, ...)`, and the namespace is as before. -/
theorem ctor_create_existing_fails (ns : Namespace) (name : String) (cap : Nat)
    (sd : SharedImageData) (hlinked : ns name = some sd) :
    SharedMemoryManager.ctor ns name SharedMemoryMode.CREATE cap =
      (ns, .error { error_code := error_code_t.already_exists_error }) ∧
    ∀ ex : interprocess_exception,
      shared_memory_object.create_only ns name = .error ex →
      (SharedMemoryManager.ctor ns name SharedMemoryMode.CREATE cap).2 = .error ex := by
  have hthrow : shared_memory_object.create_only ns name =
      .error { error_code := error_code_t.already_exists_error } := by
    simp [shared_memory_object.create_only, hlinked]
  have hctor : SharedMemoryManager.ctor ns name SharedMemoryMode.CREATE cap =
      (ns, .error { error_code := error_code_t.already_exists_error }) := by
    unfold SharedMemoryManager.ctor
    simp [hthrow]
  refine ⟨hctor, ?_⟩
  intro ex hex
  rw [hthrow] at hex
  cases hex
  rw [hctor]

/-- Witness for C6: a second `CREATE` of `"seg1"` right after the first one. -/
theorem ctor_create_existing_fails_witness :
    seg1Namespace "seg1" = some idle8 ∧
    SharedMemoryManager.ctor seg1Namespace "seg1" SharedMemoryMode.CREATE 1000 =
      (seg1Namespace, .error { error_code := error_code_t.already_exists_error }) ∧
    (SharedMemoryManager.ctor seg1Namespace "seg1" SharedMemoryMode.CREATE 1000).2 =
      .error { error_code := error_code_t.already_exists_error } :=
  ⟨by decide,
   (ctor_create_existing_fails seg1Namespace "seg1" 1000 idle8 (by decide)).1,
   (ctor_create_existing_fails seg1Namespace "seg1" 1000 idle8 (by decide)).2
     { error_code := error_code_t.already_exists_error } rfl⟩

/-- C7: constructing in `OPEN` mode fails with `not_found_error` when the name is not
linked; when it is linked the constructor succeeds with a non-creator handle and the
namespace, hence every header field and arena byte of the segment, is as before. -/
theorem ctor_open_attach (ns : Namespace) (name : String) (cap : Nat) :
    (ns name = none →
      SharedMemoryManager.ctor ns name SharedMemoryMode.OPEN cap =
        (ns, .error { error_code := error_code_t.not_found_error })) ∧
    (∀ sd : SharedImageData, ns name = some sd →
      SharedMemoryManager.ctor ns name SharedMemoryMode.OPEN cap =
        (ns, .ok { name_ := name, max_image_size_ := cap, is_creator_ := false }) ∧
      (SharedMemoryManager.ctor ns name SharedMemoryMode.OPEN cap).1 name = some sd) := by
  constructor
  · intro habsent
    unfold SharedMemoryManager.ctor
    simp [shared_memory_object.open_only, habsent]
  · intro sd hlinked
    have hctor : SharedMemoryManager.ctor ns name SharedMemoryMode.OPEN cap =
        (ns, .ok { name_ := name, max_image_size_ := cap, is_creator_ := false }) := by
      unfold SharedMemoryManager.ctor
      simp [shared_memory_object.open_only, hlinked]
    rw [hctor]
    exact ⟨rfl, hlinked⟩

/-- Witness for C7: attaching to `"seg1"` in the empty namespace and in a namespace where
it holds a pending frame. -/
theorem ctor_open_attach_witness :
    SharedMemoryManager.ctor emptyNamespace "seg1" SharedMemoryMode.OPEN 8 =
      (emptyNamespace, .error { error_code := error_code_t.not_found_error }) ∧
    SharedMemoryManager.ctor busyNamespace "seg1" SharedMemoryMode.OPEN 8 =
      (busyNamespace, .ok attached8) ∧
    (SharedMemoryManager.ctor busyNamespace "seg1" SharedMemoryMode.OPEN 8).1 "seg1" =
      some pendingBgr8 :=
  ⟨(ctor_open_attach emptyNamespace "seg1" 8).1 rfl,
   ((ctor_open_attach busyNamespace "seg1" 8).2 pendingBgr8 (by decide)).1,
   ((ctor_open_attach busyNamespace "seg1" 8).2 pendingBgr8 (by decide)).2⟩

/-- C8: for a handle that left the constructor in mode `mode`, the destructor unlinks the
handle's name exactly when `mode` is `CREATE`; for `OPEN` it leaves the whole namespace
as it was, and in either mode no other name is touched. -/
theorem dtor_unlinks_iff_creator (ns ns1 : Namespace) (name : String)
    (mode : SharedMemoryMode) (cap : Nat) (h : SharedMemoryManager)
    (hctor : SharedMemoryManager.ctor ns name mode cap = (ns1, .ok h))
    (ns2 : Namespace) (sd : SharedImageData) (hlinked : ns2 name = some sd) :
    (h.dtor ns2 name = none ↔ mode = SharedMemoryMode.CREATE) ∧
    (mode = SharedMemoryMode.OPEN → h.dtor ns2 = ns2) ∧
    (∀ other : String, other ≠ name → h.dtor ns2 other = ns2 other) := by
  have hh := SharedMemoryManager.ctor_ok_handle ns ns1 name mode cap h hctor
  subst hh
  cases mode
  · simp [SharedMemoryManager.dtor, SharedMemoryManager.remove, shared_memory_object.remove]
    intro other hne
    simp [hne]
  · simp [SharedMemoryManager.dtor, hlinked]

/-- Witness for C8: destroying the handle obtained by attaching to `"seg1"`. -/
theorem dtor_unlinks_iff_creator_witness :
    (attached8.dtor busyNamespace "seg1" = none ↔
      SharedMemoryMode.OPEN = SharedMemoryMode.CREATE) ∧
    attached8.dtor busyNamespace = busyNamespace ∧
    attached8.dtor busyNamespace "other" = busyNamespace "other" :=
  have key := dtor_unlinks_iff_creator busyNamespace busyNamespace "seg1"
    SharedMemoryMode.OPEN 8 attached8
    rfl busyNamespace pendingBgr8 (by decide)
  ⟨key.1, key.2.1 rfl, key.2.2 "other" (by decide)⟩

/-! ## The two notifications -/

/-- C9: `notifyNewImage` sets `new_image_ready = true` and `processing_done = false`,
leaves `width`, `height`, `channels`, `data_size` and the arena as they were, and a
second call (through any handle) gives the same state as the first. -/
theorem notifyNewImage_effect_idempotent (mgr mgr2 : SharedMemoryManager)
    (sd : SharedImageData) :
    (mgr.notifyNewImage sd).new_image_ready = true ∧
    (mgr.notifyNewImage sd).processing_done = false ∧
    (mgr.notifyNewImage sd).width = sd.width ∧
    (mgr.notifyNewImage sd).height = sd.height ∧
    (mgr.notifyNewImage sd).channels = sd.channels ∧
    (mgr.notifyNewImage sd).data_size = sd.data_size ∧
    (mgr.notifyNewImage sd).image_data = sd.image_data ∧
    mgr2.notifyNewImage (mgr.notifyNewImage sd) = mgr.notifyNewImage sd :=
  ⟨rfl, rfl, rfl, rfl, rfl, rfl, rfl, rfl⟩

/-- C10: `notifyProcessingDone` sets `new_image_ready = false` and
`processing_done = true` and leaves `width`, `height`, `channels`, `data_size` and the
arena as they were. -/
theorem notifyProcessingDone_effect (mgr : SharedMemoryManager) (sd : SharedImageData) :
    (mgr.notifyProcessingDone sd).new_image_ready = false ∧
    (mgr.notifyProcessingDone sd).processing_done = true ∧
    (mgr.notifyProcessingDone sd).width = sd.width ∧
    (mgr.notifyProcessingDone sd).height = sd.height ∧
    (mgr.notifyProcessingDone sd).channels = sd.channels ∧
    (mgr.notifyProcessingDone sd).data_size = sd.data_size ∧
    (mgr.notifyProcessingDone sd).image_data = sd.image_data :=
  ⟨rfl, rfl, rfl, rfl, rfl, rfl, rfl⟩

/-! ## Invariants of the reachable states -/

/-- C11: in every state reached from a successful `CREATE` construction by any finite
sequence of `writeImage`, `readImage`, `notifyNewImage`, `notifyProcessingDone`,
`waitForNewImage`, `waitForProcessingDone` and `OPEN` attach calls, exactly one of
`new_image_ready` and `processing_done` is set. -/
theorem flags_exclusive_of_reachable (ns : Namespace) (name : String) (cap : Nat)
    (sd0 : SharedImageData) (hfree : ns name = none)
    (hseg : (SharedMemoryManager.ctor ns name SharedMemoryMode.CREATE cap).1 name = some sd0)
    (ops : List Op) :
    ((Op.run ops sd0).new_image_ready = true ∧ (Op.run ops sd0).processing_done = false) ∨
    ((Op.run ops sd0).new_image_ready = false ∧ (Op.run ops sd0).processing_done = true) := by
  apply Op.run_invariant
    (fun s => (s.new_image_ready = true ∧ s.processing_done = false) ∨
      (s.new_image_ready = false ∧ s.processing_done = true)) ops
  · intro op _ s hs
    cases op with
    | writeImage mgr image =>
      obtain ⟨h1, h2⟩ := mgr.writeImage_flags image s
      simp only [Op.apply, h1, h2]
      exact hs
    | readImage mgr =>
      simp only [Op.apply, mgr.readImage_shared]
      exact hs
    | notifyNewImage mgr => exact Or.inl ⟨rfl, rfl⟩
    | notifyProcessingDone mgr => exact Or.inr ⟨rfl, rfl⟩
    | waitForNewImage mgr timeout_ms now wakes =>
      simp only [Op.apply, mgr.waitForNewImage_shared_const]
      exact hs
    | waitForProcessingDone mgr timeout_ms now wakes =>
      simp only [Op.apply, mgr.waitForProcessingDone_shared_const]
      exact hs
    | attach name cap =>
      rw [Op.apply_attach]
      exact hs
  · rw [(SharedMemoryManager.ctor_create_segment ns name cap hfree).1] at hseg
    cases hseg
    exact Or.inr ⟨rfl, rfl⟩

/-- Witness for C11: the states after one full cycle on the fresh segment `"seg1"`. -/
theorem flags_exclusive_of_reachable_witness :
    ((Op.run cycleOps idle8).new_image_ready = true ∧
      (Op.run cycleOps idle8).processing_done = false) ∨
    ((Op.run cycleOps idle8).new_image_ready = false ∧
      (Op.run cycleOps idle8).processing_done = true) :=
  flags_exclusive_of_reachable emptyNamespace "seg1" 8 idle8 rfl (by decide) cycleOps

/-- C12 as stated fails for an attached handle built with the default size: on the
segment `"seg1"` created with capacity 4, a handle attached with
`max_image_size = 1920 * 1080 * 3` accepts the six-byte frame and stores
`data_size = 6`, which exceeds the capacity. -/
theorem data_size_exceeds_capacity_counterexample :
    (SharedMemoryManager.ctor emptyNamespace "seg1" SharedMemoryMode.CREATE 4).1 "seg1"
      = some idle4 ∧
    (SharedMemoryManager.ctor (shared_memory_object.link emptyNamespace "seg1" idle4) "seg1"
      SharedMemoryMode.OPEN default_max_image_size).2 = .ok attachedDefault ∧
    bgrPair.wellFormed ∧
    (Op.run oversizeOps idle4).data_size = 6 ∧
    ¬ (Op.run oversizeOps idle4).data_size ≤ 4 := by
  refine ⟨by decide, rfl, by decide, by decide, by decide⟩

/-- C12 (amended): in every state reached from creating a segment with capacity `cap` by
any sequence of calls in which every `writeImage` goes through a handle whose
`max_image_size_` is at most `cap`, the header's `data_size` is at most `cap`. -/
theorem data_size_le_capacity_of_reachable (ns : Namespace) (name : String) (cap : Nat)
    (sd0 : SharedImageData) (hfree : ns name = none)
    (hseg : (SharedMemoryManager.ctor ns name SharedMemoryMode.CREATE cap).1 name = some sd0)
    (ops : List Op)
    (hmax : ∀ mgr image, Op.writeImage mgr image ∈ ops → mgr.max_image_size_ ≤ cap) :
    (Op.run ops sd0).data_size ≤ cap := by
  apply Op.run_invariant (fun s => s.data_size ≤ cap) ops
  · intro op hop s hs
    cases op with
    | writeImage mgr image =>
      have hle := hmax mgr image hop
      rcases mgr.writeImage_data_size image s with h | h
      · simp only [Op.apply, h]
        exact hs
      · simp only [Op.apply]
        exact Nat.le_trans h hle
    | readImage mgr =>
      simp only [Op.apply, mgr.readImage_shared]
      exact hs
    | notifyNewImage mgr => exact hs
    | notifyProcessingDone mgr => exact hs
    | waitForNewImage mgr timeout_ms now wakes =>
      simp only [Op.apply, mgr.waitForNewImage_shared_const]
      exact hs
    | waitForProcessingDone mgr timeout_ms now wakes =>
      simp only [Op.apply, mgr.waitForProcessingDone_shared_const]
      exact hs
    | attach name cap =>
      rw [Op.apply_attach]
      exact hs
  · rw [(SharedMemoryManager.ctor_create_segment ns name cap hfree).1] at hseg
    cases hseg
    exact Nat.zero_le cap

/-- Witness for C12 (amended): one full cycle through handles of capacity 8 on the
segment created with capacity 8. -/
theorem data_size_le_capacity_of_reachable_witness :
    (Op.run cycleOps idle8).data_size ≤ 8 :=
  data_size_le_capacity_of_reachable emptyNamespace "seg1" 8 idle8 rfl (by decide) cycleOps
    (by
      intro mgr image hmem
      simp only [cycleOps, List.mem_cons, List.mem_singleton, Op.writeImage.injEq,
        reduceCtorEq, false_or, or_false, List.mem_nil_iff] at hmem
      rw [hmem.1]
      decide)

/-! ## The two waits -/

/-- C13: for a timeout `T ≥ 0` and a header with `new_image_ready = false` that nobody
else changes, `waitForNewImage(T)` returns `false`, at the deadline `now + T`, after any
number of wake-ups, and leaves the header and the arena as they were; the same holds for
`waitForProcessingDone(T)` on a header with `processing_done = false`. -/
theorem wait_timeout_leaves_state (mgr : SharedMemoryManager) (T : Int) (hT : 0 ≤ T)
    (now : Nat) (wakes : List Nat) (sd : SharedImageData) :
    (sd.new_image_ready = false →
      (mgr.waitForNewImage T now (fun _ => sd) wakes).value = some false ∧
      (mgr.waitForNewImage T now (fun _ => sd) wakes).time = now + T.toNat ∧
      (mgr.waitForNewImage T now (fun _ => sd) wakes).shared = sd) ∧
    (sd.processing_done = false →
      (mgr.waitForProcessingDone T now (fun _ => sd) wakes).value = some false ∧
      (mgr.waitForProcessingDone T now (fun _ => sd) wakes).time = now + T.toNat ∧
      (mgr.waitForProcessingDone T now (fun _ => sd) wakes).shared = sd) := by
  have hneg : ¬ T < 0 := not_lt.mpr hT
  constructor
  · intro hflag
    refine ⟨?_, ?_, mgr.waitForNewImage_shared_const T now wakes sd⟩
    · unfold SharedMemoryManager.waitForNewImage
      rw [if_neg hneg]
      exact (timedWaitLoop_timeout _ _ _ wakes now (fun _ => hflag)).1
    · unfold SharedMemoryManager.waitForNewImage
      rw [if_neg hneg]
      exact (timedWaitLoop_timeout _ _ _ wakes now (fun _ => hflag)).2
  · intro hflag
    refine ⟨?_, ?_, mgr.waitForProcessingDone_shared_const T now wakes sd⟩
    · unfold SharedMemoryManager.waitForProcessingDone
      rw [if_neg hneg]
      exact (timedWaitLoop_timeout _ _ _ wakes now (fun _ => hflag)).1
    · unfold SharedMemoryManager.waitForProcessingDone
      rw [if_neg hneg]
      exact (timedWaitLoop_timeout _ _ _ wakes now (fun _ => hflag)).2

/-- Witness for C13: a 100 ms wait for a new image on the idle segment, woken twice
spuriously, and a 100 ms wait for completion on a pending one. -/
theorem wait_timeout_leaves_state_witness :
    ((attached8.waitForNewImage 100 0 (fun _ => idle8) [30, 60]).value = some false ∧
      (attached8.waitForNewImage 100 0 (fun _ => idle8) [30, 60]).time = 0 + (100 : Int).toNat ∧
      (attached8.waitForNewImage 100 0 (fun _ => idle8) [30, 60]).shared = idle8) ∧
    ((creator8.waitForProcessingDone 100 0 (fun _ => pendingBgr8) [30, 60]).value
        = some false ∧
      (creator8.waitForProcessingDone 100 0 (fun _ => pendingBgr8) [30, 60]).time
        = 0 + (100 : Int).toNat ∧
      (creator8.waitForProcessingDone 100 0 (fun _ => pendingBgr8) [30, 60]).shared
        = pendingBgr8) :=
  ⟨(wait_timeout_leaves_state attached8 100 (by decide) 0 [30, 60] idle8).1 (by decide),
   (wait_timeout_leaves_state creator8 100 (by decide) 0 [30, 60] pendingBgr8).2
     (by decide)⟩

/-- C14: whatever the timeout, the other parties and the wake-ups, when
`waitForNewImage` returns `true` the flag `new_image_ready` is set in the shared state
at the moment of return. -/
theorem waitForNewImage_true_ready (mgr : SharedMemoryManager) (timeout_ms : Int)
    (now : Nat) (env : Nat → SharedImageData) (wakes : List Nat)
    (hret : (mgr.waitForNewImage timeout_ms now env wakes).value = some true) :
    (mgr.waitForNewImage timeout_ms now env wakes).shared.new_image_ready = true ∧
    (mgr.waitForNewImage timeout_ms now env wakes).shared
      = env (mgr.waitForNewImage timeout_ms now env wakes).time := by
  unfold SharedMemoryManager.waitForNewImage at hret ⊢
  split_ifs at hret ⊢
  · exact ⟨waitLoop_true _ env wakes now hret, waitLoop_shared _ env wakes now⟩
  · exact ⟨timedWaitLoop_true _ env _ wakes now hret, timedWaitLoop_shared _ env _ wakes now⟩

/-- Witness for C14: an unbounded wait woken spuriously at clock 3 and by the
notification at clock 7, after the frame arrived at clock 5. -/
theorem waitForNewImage_true_ready_witness :
    (attached8.waitForNewImage (-1) 0 frameAtFive [3, 7]).value = some true ∧
    (attached8.waitForNewImage (-1) 0 frameAtFive [3, 7]).time = 7 ∧
    (attached8.waitForNewImage (-1) 0 frameAtFive [3, 7]).shared.new_image_ready = true ∧
    (attached8.waitForNewImage (-1) 0 frameAtFive [3, 7]).shared
      = frameAtFive (attached8.waitForNewImage (-1) 0 frameAtFive [3, 7]).time :=
  ⟨by decide, by decide,
   (waitForNewImage_true_ready attached8 (-1) 0 frameAtFive [3, 7] (by decide)).1,
   (waitForNewImage_true_ready attached8 (-1) 0 frameAtFive [3, 7] (by decide)).2⟩

/-- C16: in a bounded wait (`timeout_ms ≥ 0`) entered at clock `now`, every `timed_wait`
call is given the same deadline `now + timeout_ms`; whatever the wake-ups, the call
returns, no later than that deadline, and when its flag stays clear it returns `false`
exactly at the deadline. -/
theorem bounded_wait_single_deadline (mgr : SharedMemoryManager) (T : Int) (hT : 0 ≤ T)
    (now : Nat) (env : Nat → SharedImageData) (wakes : List Nat) :
    ((∀ d ∈ (mgr.waitForNewImage T now env wakes).deadlines, d = now + T.toNat) ∧
      (mgr.waitForNewImage T now env wakes).value ≠ none ∧
      (mgr.waitForNewImage T now env wakes).time ≤ now + T.toNat ∧
      ((∀ t, (env t).new_image_ready = false) →
        (mgr.waitForNewImage T now env wakes).value = some false ∧
        (mgr.waitForNewImage T now env wakes).time = now + T.toNat)) ∧
    ((∀ d ∈ (mgr.waitForProcessingDone T now env wakes).deadlines, d = now + T.toNat) ∧
      (mgr.waitForProcessingDone T now env wakes).value ≠ none ∧
      (mgr.waitForProcessingDone T now env wakes).time ≤ now + T.toNat ∧
      ((∀ t, (env t).processing_done = false) →
        (mgr.waitForProcessingDone T now env wakes).value = some false ∧
        (mgr.waitForProcessingDone T now env wakes).time = now + T.toNat)) := by
  have hneg : ¬ T < 0 := not_lt.mpr hT
  constructor
  · unfold SharedMemoryManager.waitForNewImage
    rw [if_neg hneg]
    obtain ⟨h1, h2, h3⟩ := timedWaitLoop_bounded (fun sd => sd.new_image_ready) env
      (now + T.toNat) wakes now (Nat.le_add_right now T.toNat)
    exact ⟨h2, h1, h3, fun hclear => timedWaitLoop_timeout _ env _ wakes now hclear⟩
  · unfold SharedMemoryManager.waitForProcessingDone
    rw [if_neg hneg]
    obtain ⟨h1, h2, h3⟩ := timedWaitLoop_bounded (fun sd => sd.processing_done) env
      (now + T.toNat) wakes now (Nat.le_add_right now T.toNat)
    exact ⟨h2, h1, h3, fun hclear => timedWaitLoop_timeout _ env _ wakes now hclear⟩

/-- Witness for C16: a 100 ms wait entered at clock 10 and woken spuriously at 30, 60
and 90 passes the deadline 110 to each of its four `timed_wait` calls and returns
`false` at 110. -/
theorem bounded_wait_single_deadline_witness :
    (attached8.waitForNewImage 100 10 (fun _ => idle8) [30, 60, 90]).deadlines
      = [110, 110, 110, 110] ∧
    (∀ d ∈ (attached8.waitForNewImage 100 10 (fun _ => idle8) [30, 60, 90]).deadlines,
      d = 10 + (100 : Int).toNat) ∧
    (attached8.waitForNewImage 100 10 (fun _ => idle8) [30, 60, 90]).value = some false ∧
    (attached8.waitForNewImage 100 10 (fun _ => idle8) [30, 60, 90]).time
      = 10 + (100 : Int).toNat :=
  ⟨by decide,
   (bounded_wait_single_deadline attached8 100 (by decide) 10 (fun _ => idle8)
      [30, 60, 90]).1.1,
   ((bounded_wait_single_deadline attached8 100 (by decide) 10 (fun _ => idle8)
      [30, 60, 90]).1.2.2.2 (fun _ => rfl)).1,
   ((bounded_wait_single_deadline attached8 100 (by decide) 10 (fun _ => idle8)
      [30, 60, 90]).1.2.2.2 (fun _ => rfl)).2⟩

/-! ## One full hand-off cycle -/

set_option maxRecDepth 100000 in
/-- C15 as stated fails on the spec's own figures: on a segment of capacity 1000 the
500-byte frame of 10 rows, 25 columns and two channels is written successfully and the
consumer's wait returns `true`, but `readImage` returns a three-channel frame of
`10 * 25 * 3 = 750` bytes (the 500 written ones followed by 250 bytes of the untouched
arena), not the written bytes. -/
theorem fullCycle_two_channel_counterexample :
    twoChannel500.wellFormed ∧ twoChannel500.data.length = 500 ∧
    twoChannel500.total * twoChannel500.elemSize ≤ 1000 ∧
    ∃ r : CycleResult,
      fullCycle emptyNamespace "seg1" 1000 attachedDefault twoChannel500 0 = some r ∧
      r.written = some true ∧ r.ready_wait.value = some true ∧
      r.frame = some misread750 ∧ misread750.data.length = 750 ∧
      misread750.channels = 3 ∧
      ¬ ∃ m : Mat, r.frame = some m ∧ m.data = twoChannel500.data := by
  have hwf : twoChannel500.wellFormed := by decide
  have hframe : (attachedDefault.readImage { writtenState 1000 twoChannel500 with
      new_image_ready := true, processing_done := false }).1 = some misread750 := by
    decide
  refine ⟨hwf, by decide, by decide, _,
    fullCycle_eq emptyNamespace "seg1" 1000 attachedDefault twoChannel500 0 rfl hwf
      (by decide) (by decide), rfl, rfl, hframe, by decide, rfl, ?_⟩
  rintro ⟨m, hm, hdata⟩
  have hm2 : some misread750 = some m := hframe.symm.trans hm
  cases hm2
  have hlen := congrArg List.length hdata
  revert hlen
  decide

/-- C15 (amended): for every non-empty frame of type `CV_8UC3` whose payload is at most
the capacity, the sequential run create, `writeImage`, `notifyNewImage`,
`waitForNewImage()`, `readImage`, `notifyProcessingDone`, `waitForProcessingDone(1000)`
has `writeImage` succeed, both waits return `true` at the clock they were entered at
with no wake-up, `readImage` return exactly the written bytes, and ends idle. -/
theorem fullCycle_bgr (ns : Namespace) (name : String) (cap : Nat)
    (consumer : SharedMemoryManager) (image : Mat) (now : Nat) (hfree : ns name = none)
    (hwf : image.wellFormed) (hne : image.empty = false) (h3 : image.isCV_8UC3)
    (hcap : image.total * image.elemSize ≤ cap) :
    ∃ r : CycleResult,
      fullCycle ns name cap consumer image now = some r ∧
      r.written = some true ∧
      r.ready_wait.value = some true ∧ r.ready_wait.time = now ∧
      (∃ m : Mat, r.frame = some m ∧ m.data = image.data ∧ m.cols = image.cols ∧
        m.rows = image.rows ∧ m.channels = image.channels) ∧
      r.done_wait.value = some true ∧ r.done_wait.time = now ∧
      r.final.new_image_ready = false ∧ r.final.processing_done = true ∧
      r.final.data_size = image.data.length := by
  refine ⟨_, fullCycle_eq ns name cap consumer image now hfree hwf hne hcap, rfl, rfl, rfl,
    ?_, rfl, rfl, rfl, rfl, rfl⟩
  refine ⟨_, consumer.readImage_writtenState cap image true false hwf hne h3, rfl, rfl, rfl,
    h3.1.symm⟩

/-- Witness for C15 (amended): the six-byte three-channel frame on `"seg1"` with
capacity 1000. -/
theorem fullCycle_bgr_witness :
    ∃ r : CycleResult,
      fullCycle emptyNamespace "seg1" 1000 attachedDefault bgrPair 0 = some r ∧
      r.written = some true ∧
      r.ready_wait.value = some true ∧ r.ready_wait.time = 0 ∧
      (∃ m : Mat, r.frame = some m ∧ m.data = bgrPair.data ∧ m.cols = bgrPair.cols ∧
        m.rows = bgrPair.rows ∧ m.channels = bgrPair.channels) ∧
      r.done_wait.value = some true ∧ r.done_wait.time = 0 ∧
      r.final.new_image_ready = false ∧ r.final.processing_done = true ∧
      r.final.data_size = bgrPair.data.length :=
  fullCycle_bgr emptyNamespace "seg1" 1000 attachedDefault bgrPair 0 rfl (by decide)
    (by decide) (by decide) (by decide)

/-! ## Flag pairs outside the protocol -/

/-- C17 as stated fails: on a header with both flags set, `waitForNewImage` and
`waitForProcessingDone` return the ordinary success value `true`, with and without a
timeout. -/
theorem wait_both_flags_set_counterexample :
    bothSet8.new_image_ready = true ∧ bothSet8.processing_done = true ∧
    (attached8.waitForNewImage (-1) 0 (fun _ => bothSet8) []).value = some true ∧
    (attached8.waitForNewImage 100 0 (fun _ => bothSet8) []).value = some true ∧
    (creator8.waitForProcessingDone (-1) 0 (fun _ => bothSet8) []).value = some true ∧
    (creator8.waitForProcessingDone 100 0 (fun _ => bothSet8) []).value = some true := by
  decide

/-- C17 (amended): the waits do not look at the flag pair, each looks at its own flag
only.  Entered with `new_image_ready` set, `waitForNewImage` returns `true` at once
whatever `processing_done` is, and likewise `waitForProcessingDone` with
`processing_done` set; on a header with both flags clear that nobody else changes, a
bounded wait of either kind returns the ordinary timeout value `false` and leaves the
header as it was. -/
theorem wait_looks_at_own_flag (mgr : SharedMemoryManager) (T : Int) (now : Nat)
    (env : Nat → SharedImageData) (wakes : List Nat) (sd : SharedImageData) :
    ((env now).new_image_ready = true →
      mgr.waitForNewImage T now env wakes =
        { value := some true, time := now, shared := env now, deadlines := [] }) ∧
    ((env now).processing_done = true →
      mgr.waitForProcessingDone T now env wakes =
        { value := some true, time := now, shared := env now, deadlines := [] }) ∧
    (0 ≤ T → sd.new_image_ready = false → sd.processing_done = false →
      (mgr.waitForNewImage T now (fun _ => sd) wakes).value = some false ∧
      (mgr.waitForNewImage T now (fun _ => sd) wakes).shared = sd ∧
      (mgr.waitForProcessingDone T now (fun _ => sd) wakes).value = some false ∧
      (mgr.waitForProcessingDone T now (fun _ => sd) wakes).shared = sd) := by
  refine ⟨mgr.waitForNewImage_of_ready T now env wakes,
    mgr.waitForProcessingDone_of_done T now env wakes, ?_⟩
  intro hT hready hdone
  have hneg : ¬ T < 0 := not_lt.mpr hT
  refine ⟨?_, mgr.waitForNewImage_shared_const T now wakes sd, ?_,
    mgr.waitForProcessingDone_shared_const T now wakes sd⟩
  · unfold SharedMemoryManager.waitForNewImage
    rw [if_neg hneg]
    exact (timedWaitLoop_timeout _ _ _ wakes now (fun _ => hready)).1
  · unfold SharedMemoryManager.waitForProcessingDone
    rw [if_neg hneg]
    exact (timedWaitLoop_timeout _ _ _ wakes now (fun _ => hdone)).1

/-- Witness for C17 (amended): both waits on the header with both flags set, and the
100 ms waits on the header with both flags clear. -/
theorem wait_looks_at_own_flag_witness :
    attached8.waitForNewImage (-1) 0 (fun _ => bothSet8) [] =
      { value := some true, time := 0, shared := bothSet8, deadlines := [] } ∧
    attached8.waitForProcessingDone (-1) 0 (fun _ => bothSet8) [] =
      { value := some true, time := 0, shared := bothSet8, deadlines := [] } ∧
    ((attached8.waitForNewImage 100 0 (fun _ => bothClear8) [40]).value = some false ∧
      (attached8.waitForNewImage 100 0 (fun _ => bothClear8) [40]).shared = bothClear8 ∧
      (attached8.waitForProcessingDone 100 0 (fun _ => bothClear8) [40]).value
        = some false ∧
      (attached8.waitForProcessingDone 100 0 (fun _ => bothClear8) [40]).shared
        = bothClear8) :=
  ⟨(wait_looks_at_own_flag attached8 (-1) 0 (fun _ => bothSet8) [] bothSet8).1 rfl,
   (wait_looks_at_own_flag attached8 (-1) 0 (fun _ => bothSet8) [] bothSet8).2.1 rfl,
   (wait_looks_at_own_flag attached8 100 0 (fun _ => bothClear8) [40] bothClear8).2.2
     (by decide) rfl rfl⟩

/-! ## The consumer step on an empty frame -/

/-- C18: on a header with `new_image_ready = true` in which `width`, `height` or
`data_size` is zero, `readImage` returns the empty frame, and one call of `processOnce`
as well as one iteration of `processingLoop` ends without calling
`notifyProcessingDone` and with the shared state exactly as it was: the flag
`new_image_ready` stays set, and a header that was `(ready, done) = (true, false)`
stays so. -/
theorem consumer_step_empty_frame (proc : ImageProcessor) (completes : Mat → Bool)
    (now : Nat) (env : Nat → SharedImageData) (wakes : List Nat) (sd : SharedImageData)
    (henv : env now = sd) (hready : sd.new_image_ready = true)
    (hempty : sd.width = 0 ∨ sd.height = 0 ∨ sd.data_size = 0) :
    (proc.shm_manager_.readImage sd).1 = some Mat.mk0 ∧ Mat.mk0.empty = true ∧
    proc.processOnce completes now env wakes =
      { shared := sd, notified := false, finished := true } ∧
    proc.processingLoopStep completes now env wakes =
      { shared := sd, notified := false, finished := true } ∧
    (proc.processOnce completes now env wakes).shared.new_image_ready = true ∧
    (sd.processing_done = false →
      (proc.processOnce completes now env wakes).shared.processing_done = false ∧
      (proc.processingLoopStep completes now env wakes).shared.processing_done = false) := by
  have hread : proc.shm_manager_.readImage sd = (some Mat.mk0, sd) := by
    unfold SharedMemoryManager.readImage
    rw [if_pos hempty]
  have hwait : ∀ T : Int, proc.shm_manager_.waitForNewImage T now env wakes =
      { value := some true, time := now, shared := sd, deadlines := [] } := by
    intro T
    rw [proc.shm_manager_.waitForNewImage_of_ready T now env wakes (by rw [henv]; exact hready),
      henv]
  have hmk0 : Mat.mk0.empty = true := by decide
  have honce : proc.processOnce completes now env wakes =
      { shared := sd, notified := false, finished := true } := by
    unfold ImageProcessor.processOnce
    simp only [hwait, hread, hmk0, if_true]
  have hloop : proc.processingLoopStep completes now env wakes =
      { shared := sd, notified := false, finished := true } := by
    unfold ImageProcessor.processingLoopStep
    simp only [hwait, hread, hmk0, Bool.not_true, Bool.false_eq_true, if_false]
  refine ⟨by rw [hread], hmk0, honce, hloop, ?_, ?_⟩
  · rw [honce]; exact hready
  · intro hdone
    rw [honce, hloop]
    exact ⟨hdone, hdone⟩

/-- Witness for C18: the consumer on a pending header into which no frame was written,
with a processing stage that would complete on any frame. -/
theorem consumer_step_empty_frame_witness :
    (attachedDefault.readImage pendingEmpty8).1 = some Mat.mk0 ∧ Mat.mk0.empty = true ∧
    ImageProcessor.processOnce { shm_manager_ := attachedDefault } (fun _ => true) 0
        (fun _ => pendingEmpty8) [] =
      { shared := pendingEmpty8, notified := false, finished := true } ∧
    ImageProcessor.processingLoopStep { shm_manager_ := attachedDefault } (fun _ => true) 0
        (fun _ => pendingEmpty8) [] =
      { shared := pendingEmpty8, notified := false, finished := true } ∧
    (ImageProcessor.processOnce { shm_manager_ := attachedDefault } (fun _ => true) 0
        (fun _ => pendingEmpty8) []).shared.new_image_ready = true ∧
    (ImageProcessor.processOnce { shm_manager_ := attachedDefault } (fun _ => true) 0
        (fun _ => pendingEmpty8) []).shared.processing_done = false ∧
    (ImageProcessor.processingLoopStep { shm_manager_ := attachedDefault } (fun _ => true) 0
        (fun _ => pendingEmpty8) []).shared.processing_done = false :=
  have key := consumer_step_empty_frame { shm_manager_ := attachedDefault } (fun _ => true) 0
    (fun _ => pendingEmpty8) [] pendingEmpty8 rfl (by decide) (by decide)
  ⟨key.1, key.2.1, key.2.2.1, key.2.2.2.1, key.2.2.2.2.1, (key.2.2.2.2.2 (by decide)).1,
   (key.2.2.2.2.2 (by decide)).2⟩

end IPC
